import Mathlib

/-!
# Verification of the authentication core of the Vacation Project

Shallow embedding of the authentication subsystem:
`src/models/User.py`, `src/DAL/UserService.py`, `src/DAL/AuthService.py`.

Embedding conventions:

* Time is a `Nat` of UTC seconds.  `datetime.now(UTC)` becomes an explicit
  `now : Nat` argument; `timedelta(hours=h)` is `3600 * h` seconds.
* Passwords enter `bcrypt` as UTF-8 byte strings (the Python code calls
  `password.encode('utf-8')` before every bcrypt call), so a password is
  represented by its byte string, `List UInt8`.
* The `bcrypt` library is modelled as an ideal salted hash: the hash value
  records the salt and (as a stand-in for the one-way digest) the bytes the
  digest is computed from.  Per bcrypt's documented behaviour, only the first
  72 bytes of the password take part: longer inputs are silently truncated.
  `checkpw` recomputes with the embedded salt and compares.  (bcrypt's
  rejection of NUL-containing byte strings is not modelled.)
* A JWT string produced by `jwt.encode(payload, secret, 'HS256')` is
  determined injectively by the payload and the signing secret, and every
  other string is structurally malformed or carries an invalid signature;
  a token string is therefore represented by either a `(payload, secret)`
  pair or a malformed string.  `jwt.decode` succeeds exactly when
  the signing secret equals the verification secret and the current time is
  before the embedded `exp` (PyJWT raises `ExpiredSignatureError` when
  `exp <= now`); it fails with `InvalidTokenError` otherwise.
* The users table is an in-memory list plus a serial id counter.  The SQL
  `WHERE email = %s` / `WHERE id = %s` clauses are exact equality on the
  stored values, mirrored by `List.find?` / `List.any` with `==`.
* A Python `raise` aborts the operation before any further write, so
  fallible operations return `Except PyErr`; the success value carries the
  updated store, an error carries none (the modelled code never commits
  half-done work: each operation performs at most one write, last).
-/

namespace VacProj

instance {ε α : Type} [DecidableEq ε] [DecidableEq α] : DecidableEq (Except ε α) := fun a b =>
  match a, b with
  | .ok x, .ok y =>
      if h : x = y then .isTrue (by rw [h]) else .isFalse (by intro hc; cases hc; exact h rfl)
  | .error x, .error y =>
      if h : x = y then .isTrue (by rw [h]) else .isFalse (by intro hc; cases hc; exact h rfl)
  | .ok _, .error _ => .isFalse (by intro hc; cases hc)
  | .error _, .ok _ => .isFalse (by intro hc; cases hc)

/-- A Python exception as far as the auth core distinguishes them:
`ValueError(msg)` or `KeyError(key)` (from a `dict[...]` lookup). -/
inductive PyErr where
  | valueError (msg : String)
  | keyError (key : String)
deriving DecidableEq, Repr

/-- A bcrypt salt (abstract here; `bcrypt.gensalt()` supplies a fresh one per call,
modelled as an explicit argument). -/
structure Salt where
  val : Nat
deriving DecidableEq, Repr

/-- A password as the bcrypt library receives it: its UTF-8 bytes. -/
abbrev Password := List UInt8

/-- bcrypt uses only the first 72 bytes of the password; the rest is
silently ignored (documented bcrypt behaviour). -/
def bcryptInput (password : Password) : List UInt8 :=
  password.take 72

/-- The result of `bcrypt.hashpw`: a self-describing hash string encoding
the salt and the digest.  The digest is modelled as the (truncated) bytes
it is computed from, i.e. the digest function is taken collision-free. -/
structure BcryptHash where
  salt : Salt
  digest : List UInt8
deriving DecidableEq, Repr

/-- Embeds `bcrypt.hashpw(password, salt)`. -/
def bcrypt.hashpw (password : Password) (salt : Salt) : BcryptHash :=
  ⟨salt, bcryptInput password⟩

/-- Embeds `bcrypt.checkpw(password, hash)`: recompute with the embedded salt and
compare digests. -/
def bcrypt.checkpw (password : Password) (h : BcryptHash) : Bool :=
  bcrypt.hashpw password h.salt == h

/-- A user record (`src/models/User.py`); `password` holds the stored
bcrypt hash (`User._password`), `none` when never set. -/
structure User where
  id : Nat
  first_name : String
  last_name : String
  email : String
  password : Option BcryptHash
  role_id : String
  created_at : Nat
deriving DecidableEq, Repr

/-- Embeds `User.password_hash` property: returns the stored hash. -/
def User.password_hash (u : User) : Option BcryptHash :=
  u.password

/-- Embeds `User.set_password`: hash with a fresh salt and store. -/
def User.set_password (u : User) (password : Password) (salt : Salt) : User :=
  { u with password := some (bcrypt.hashpw password salt) }

/-- Embeds `User.verify_password`: `False` when no hash is stored, else
`bcrypt.checkpw` against the stored hash. -/
def User.verify_password (u : User) (password : Password) : Bool :=
  match u.password with
  | none => false
  | some h => bcrypt.checkpw password h

/-- The users table plus the serial id sequence backing `users.id`. -/
structure Store where
  users : List User
  nextId : Nat
deriving DecidableEq, Repr

namespace UserService

/-- Embeds `UserService.get_by_email`: `SELECT ... FROM users WHERE email = %s`
(exact string equality in SQL). -/
def get_by_email (s : Store) (email : String) : Option User :=
  s.users.find? (fun u => u.email == email)

/-- Embeds `UserService.get_by_id`: `SELECT ... FROM users WHERE id = %s`. -/
def get_by_id (s : Store) (user_id : Nat) : Option User :=
  s.users.find? (fun u => u.id == user_id)

/-- Embeds `UserService.exists`: `SELECT EXISTS(SELECT 1 FROM users WHERE email = %s)`. -/
def exists_ (s : Store) (email : String) : Bool :=
  s.users.any (fun u => u.email == email)

/-- Embeds `UserService.create`: re-checks the email, then `INSERT ... RETURNING`
with the serial id. -/
def create (s : Store) (user : User) : Except PyErr (User × Store) :=
  match get_by_email s user.email with
  | some _ => .error (.valueError ("Email already exists"))
  | none =>
      let created := { user with id := s.nextId }
      .ok (created, ⟨s.users ++ [created], s.nextId + 1⟩)

/-- Embeds `UserService.update_password`: fetch the user, re-hash, then
`UPDATE users SET password = %s WHERE id = %s`. -/
def update_password (s : Store) (user_id : Nat) (new_password : Password)
    (salt : Salt) : Except PyErr (Bool × Store) :=
  match get_by_id s user_id with
  | none => .error (.valueError ("User not found"))
  | some user =>
      let hashed := (user.set_password new_password salt).password
      .ok (true,
        ⟨s.users.map (fun u => if u.id == user_id then { u with password := hashed } else u),
         s.nextId⟩)

end UserService

/-- The decoded claims of a JWT issued or checked by this system.  Claims a
payload may lack (`payload['k']` raises `KeyError`, `payload.get('k')`
yields `None`) are `Option`-valued. -/
structure Payload where
  sub : Option Nat
  email : Option String
  role_id : Option String
  type : Option String
  iat : Nat
  exp : Nat
  jti : Option String
deriving DecidableEq, Repr

/-- A token string: either the compact serialization of a payload signed
with a secret (the image of `jwt.encode`, injective in both), or any other,
structurally malformed, string. -/
inductive Token where
  | signed (payload : Payload) (secret : String)
  | malformed (raw : String)
deriving DecidableEq, Repr

/-- Embeds `jwt.encode(payload, secret, algorithm='HS256')`. -/
def jwt.encode (payload : Payload) (secret : String) : Token :=
  .signed payload secret

/-- Embeds `jwt.decode(token, secret, algorithms=['HS256'])`: verifies the
signature, then the `exp` claim (PyJWT: expired when `exp <= now`); any
failure is a `jwt.InvalidTokenError`.  `.error` stands for that exception. -/
def jwt.decode (token : Token) (secret : String) (now : Nat) : Except Unit Payload :=
  match token with
  | .malformed _ => .error ()
  | .signed p s =>
      if s ≠ secret then .error ()
      else if p.exp ≤ now then .error ()
      else .ok p

/-- The class-level JWT configuration of `AuthService`
(`JWT_SECRET`, `JWT_EXPIRY_HOURS`; the algorithm is fixed to HS256). -/
structure AuthConfig where
  secret : String
  expiryHours : Nat
deriving DecidableEq, Repr

/-- Embeds `str(now.timestamp())`: a string determined by the current time
(used as the `jti` claim in `refresh_token`). -/
def timestampStr (now : Nat) : String :=
  toString now

namespace AuthService

/-- Embeds `AuthService.register`. -/
def register (s : Store) (first_name last_name email : String)
    (password : Password) (salt : Salt) (now : Nat) :
    Except PyErr (User × Store) :=
  if UserService.exists_ s email then
    .error (.valueError ("Email already registered"))
  else
    UserService.create s
      { id := 0
        first_name := first_name
        last_name := last_name
        email := email
        password := some (bcrypt.hashpw password salt)
        role_id := "user"
        created_at := now }

/-- Embeds `AuthService.generate_token`. -/
def generate_token (cfg : AuthConfig) (now : Nat) (user : User) : Token :=
  jwt.encode
    { sub := some user.id
      email := some user.email
      role_id := some user.role_id
      type := none
      iat := now
      exp := now + 3600 * cfg.expiryHours
      jti := none }
    cfg.secret

/-- Embeds `AuthService.login`. -/
def login (cfg : AuthConfig) (s : Store) (now : Nat) (email : String)
    (password : Password) : Except PyErr (User × Token) :=
  match UserService.get_by_email s email with
  | none => .error (.valueError ("Invalid email or password"))
  | some user =>
      if ¬ user.verify_password password then
        .error (.valueError ("Invalid email or password"))
      else
        .ok (user, generate_token cfg now user)

/-- Embeds `AuthService.verify_token`.  The `except Exception` handler also
swallows the `KeyError`s from `payload['sub']`, `payload['email']`,
`payload['role_id']`, so a missing claim yields `none`. -/
def verify_token (cfg : AuthConfig) (s : Store) (now : Nat) (token : Token) :
    Option User :=
  match jwt.decode token cfg.secret now with
  | .error _ => none
  | .ok payload =>
      match payload.sub with
      | none => none
      | some subj =>
          match UserService.get_by_id s subj with
          | none => none
          | some user =>
              match payload.email with
              | none => none
              | some em =>
                  if user.email ≠ em then none
                  else
                    match payload.role_id with
                    | none => none
                    | some r =>
                        if user.role_id ≠ r then none
                        else some user

/-- Embeds `AuthService.change_password`. -/
def change_password (s : Store) (user_id : Nat) (old_password new_password : Password)
    (salt : Salt) : Except PyErr (Bool × Store) :=
  match UserService.get_by_id s user_id with
  | none => .error (.valueError ("Current password is incorrect"))
  | some user =>
      if ¬ user.verify_password old_password then
        .error (.valueError ("Current password is incorrect"))
      else
        UserService.update_password s user_id new_password salt

/-- Embeds `AuthService.request_password_reset`. -/
def request_password_reset (cfg : AuthConfig) (s : Store) (now : Nat)
    (email : String) : Option Token :=
  match UserService.get_by_email s email with
  | none => none
  | some user =>
      some (jwt.encode
        { sub := some user.id
          email := some user.email
          role_id := none
          type := some ("reset")
          iat := now
          exp := now + 3600
          jti := none }
        cfg.secret)

/-- Embeds `AuthService.reset_password`.  Only `jwt.InvalidTokenError` is caught
(and re-raised as `ValueError`); a `KeyError` from `payload['sub']` or
`payload['email']` propagates as such. -/
def reset_password (cfg : AuthConfig) (s : Store) (now : Nat)
    (reset_token : Token) (new_password : Password) (salt : Salt) :
    Except PyErr (Bool × Store) :=
  match jwt.decode reset_token cfg.secret now with
  | .error _ => .error (.valueError ("Invalid or expired reset token"))
  | .ok payload =>
      if payload.type ≠ some ("reset") then
        .error (.valueError ("Invalid reset token"))
      else
        match payload.sub with
        | none => .error (.keyError ("sub"))
        | some subj =>
            match UserService.get_by_id s subj with
            | none => .error (.valueError ("Invalid reset token"))
            | some user =>
                match payload.email with
                | none => .error (.keyError ("email"))
                | some em =>
                    if user.email ≠ em then
                      .error (.valueError ("Invalid reset token"))
                    else
                      UserService.update_password s user.id new_password salt

/-- Embeds `AuthService.refresh_token`. -/
def refresh_token (cfg : AuthConfig) (s : Store) (now : Nat) (token : Token) :
    Except PyErr Token :=
  match verify_token cfg s now token with
  | none => .error (.valueError ("Invalid or expired token"))
  | some user =>
      .ok (jwt.encode
        { sub := some user.id
          email := some user.email
          role_id := some user.role_id
          type := none
          iat := now
          exp := now + 3600 * cfg.expiryHours
          jti := some (timestampStr now) }
        cfg.secret)

end AuthService

/-- The store invariant the code actually maintains: persisted users have
pairwise distinct emails (exact string comparison, as in the SQL lookups)
and every persisted user's password hash is set. -/
def StoreInv (s : Store) : Prop :=
  s.users.Pairwise (fun a b => a.email ≠ b.email) ∧ ∀ u ∈ s.users, u.password.isSome = true

/-- A string lower-cased character by character (the normalization the
spec prescribes before email comparison). -/
def lowerStr (a : String) : List Char :=
  a.data.map Char.toLower

/-- The invariant as the spec states it: emails pairwise distinct up to
case (lower-cased before comparison) and password hashes set. -/
def StoreInvCI (s : Store) : Prop :=
  s.users.Pairwise (fun a b => lowerStr a.email ≠ lowerStr b.email) ∧
    ∀ u ∈ s.users, u.password.isSome = true

instance (s : Store) : Decidable (StoreInv s) := by
  unfold StoreInv; exact inferInstance

instance (s : Store) : Decidable (StoreInvCI s) := by
  unfold StoreInvCI; exact inferInstance

/-- The two `ValueError`s `AuthService.reset_password` raises for a bad
reset token (the spec's `InvalidResetToken`). -/
def isInvalidResetTokenErr (e : PyErr) : Prop :=
  e = .valueError ("Invalid reset token") ∨ e = .valueError ("Invalid or expired reset token")

/-! ## Concrete fixtures used by witnesses and counterexamples -/

def salt0 : Salt := ⟨0⟩

/-- UTF-8 bytes of the password string "hi". -/
def pwA : Password := [104, 105]

/-- UTF-8 bytes of the password string "x". -/
def pwB : Password := [120]

/-- A 73-byte password: 72 copies of byte 97 followed by byte 98. -/
def longPw1 : Password := List.replicate 72 (97 : UInt8) ++ [98]

/-- A 73-byte password: 72 copies of byte 97 followed by byte 99. -/
def longPw2 : Password := List.replicate 72 (97 : UInt8) ++ [99]

/-- The default class configuration: `JWT_SECRET = 'your-secret-key'`,
`JWT_EXPIRY_HOURS = 24`. -/
def cfg0 : AuthConfig := ⟨"your-secret-key", 24⟩

def user0 : User := ⟨1, "A", "B", "a@x.com", some (bcrypt.hashpw pwA salt0), "user", 0⟩

def emptyStore : Store := ⟨[], 1⟩

/-- The store after registering `user0` into the empty store. -/
def store1 : Store := ⟨[user0], 2⟩

/-- A second user whose email differs from `user0`'s only in letter case. -/
def userCase : User := ⟨2, "C", "D", "A@X.COM", some (bcrypt.hashpw pwA salt0), "user", 0⟩

/-- The store after additionally registering `userCase`. -/
def storeCase : Store := ⟨[user0, userCase], 3⟩

/-- A session token for `user0` as `refresh_token` itself would issue it at
time 1000 under `cfg0` (in particular it carries `jti = str(1000)`). -/
def tokRefresh : Token :=
  .signed ⟨some 1, some ("a@x.com"), some ("user"), none, 1000, 1000 + 3600 * 24,
    some (timestampStr 1000)⟩ ("your-secret-key")

/-- The reset token `request_password_reset cfg0 store1 0 "a@x.com"` issues. -/
def resetTok0 : Token :=
  .signed ⟨some 1, some ("a@x.com"), none, some ("reset"), 0, 3600, none⟩ ("your-secret-key")

/-- The session token `generate_token cfg0 0 user0` issues. -/
def tokSession : Token :=
  .signed ⟨some 1, some ("a@x.com"), some ("user"), none, 0, 3600 * 24, none⟩ ("your-secret-key")

/-! ## Theorems -/

/-- A user found by id lookup has that id. -/
theorem get_by_id_eq {s : Store} {i : Nat} {u : User}
    (h : UserService.get_by_id s i = some u) : u.id = i := by
  have := List.find?_some h
  simpa using this

/-- A user found by email lookup has that email. -/
theorem get_by_email_eq {s : Store} {email : String} {u : User}
    (h : UserService.get_by_email s email = some u) : u.email = email := by
  have := List.find?_some h
  simpa using this

/-- A user found by lookup is in the store. -/
theorem get_by_id_mem {s : Store} {i : Nat} {u : User}
    (h : UserService.get_by_id s i = some u) : u ∈ s.users :=
  List.mem_of_find?_eq_some h

/-- Lemma: `update_password` succeeds whenever the user id resolves. -/
theorem update_password_ok {s : Store} {i : Nat} {u : User}
    (h : UserService.get_by_id s i = some u) (pw : Password) (salt : Salt) :
    UserService.update_password s i pw salt =
      .ok (true,
        ⟨s.users.map (fun v => if v.id == i then
            { v with password := (u.set_password pw salt).password } else v),
         s.nextId⟩) := by
  simp [UserService.update_password, h]

/-- C4, counterexample: two distinct 73-byte passwords that agree on their
first 72 bytes.  Hashing `longPw2` and verifying `longPw1` against the
result succeeds, because bcrypt ignores every byte past the 72nd — so
`verify(p, hash(p2))` is not false for all `p ≠ p2`. -/
theorem C4_distinct_passwords_collide_cex :
    longPw1 ≠ longPw2 ∧
    User.verify_password (User.set_password user0 longPw2 salt0) longPw1 = true := by
  decide

/-- C4, amended: verifying a password against the hash of that same
password always succeeds, and verifying `p` against the hash of `p2` fails
whenever `p` and `p2` differ within their first 72 bytes (the part of the
password bcrypt uses). -/
theorem C4_hash_verify_correct (u : User) (p p2 : Password) (salt : Salt) :
    User.verify_password (User.set_password u p salt) p = true ∧
    (bcryptInput p ≠ bcryptInput p2 →
      User.verify_password (User.set_password u p2 salt) p = false) := by
  constructor
  · simp [User.verify_password, User.set_password, bcrypt.checkpw, bcrypt.hashpw]
  · intro h
    simp only [User.verify_password, User.set_password, bcrypt.checkpw, bcrypt.hashpw,
      beq_eq_false_iff_ne, ne_eq, BcryptHash.mk.injEq]
    intro hc
    exact h hc.2

/-- C4, witness for the amended theorem at concrete inputs. -/
theorem C4_hash_verify_correct_witness :
    User.verify_password (User.set_password user0 pwB salt0) pwB = true ∧
    User.verify_password (User.set_password user0 pwB salt0) pwA = false :=
  ⟨(C4_hash_verify_correct user0 pwB pwB salt0).1,
   (C4_hash_verify_correct user0 pwA pwB salt0).2 (by decide)⟩

/-- C2: login raises `ValueError("Invalid email or password")` both when no
user with the email exists and when the user exists but password
verification fails — the very same error value (type and message), so the
two cases are indistinguishable to the caller. -/
theorem C2_login_indistinguishable_error (cfg : AuthConfig) (s : Store) (now : Nat)
    (email : String) (password : Password) :
    (UserService.get_by_email s email = none →
      AuthService.login cfg s now email password =
        .error (.valueError ("Invalid email or password"))) ∧
    (∀ u, UserService.get_by_email s email = some u →
      u.verify_password password = false →
      AuthService.login cfg s now email password =
        .error (.valueError ("Invalid email or password"))) := by
  constructor
  · intro h
    simp [AuthService.login, h]
  · intro u h hv
    simp [AuthService.login, h, hv]

/-- C2, witness: under the fixture store, logging in with a wrong password
for an existing email and with a nonexistent email both yield the same
`ValueError`. -/
theorem C2_login_indistinguishable_error_witness :
    AuthService.login cfg0 store1 0 ("nobody@x.com") pwA =
      .error (.valueError ("Invalid email or password")) ∧
    AuthService.login cfg0 store1 0 ("a@x.com") pwB =
      .error (.valueError ("Invalid email or password")) :=
  ⟨(C2_login_indistinguishable_error cfg0 store1 0 ("nobody@x.com") pwA).1 (by decide),
   (C2_login_indistinguishable_error cfg0 store1 0 ("a@x.com") pwB).2 user0 (by decide) (by decide)⟩

/-- C6: decoding a malformed string always fails; decoding a signed token
fails exactly when the signing secret differs from the verification secret
or the current time is at or after the embedded expiry; in particular a
session token issued by `generate_token` fails decode under the correct
secret once its expiry has elapsed. -/
theorem C6_decode_fail_iff (secret : String) (now : Nat) :
    (∀ raw, jwt.decode (.malformed raw) secret now = .error ()) ∧
    (∀ p s, (∃ e, jwt.decode (.signed p s) secret now = .error e) ↔
      (s ≠ secret ∨ p.exp ≤ now)) ∧
    (∀ cfg u t t2, t + 3600 * cfg.expiryHours ≤ t2 →
      jwt.decode (AuthService.generate_token cfg t u) cfg.secret t2 = .error ()) := by
  refine ⟨fun raw => rfl, fun p s => ?_, fun cfg u t t2 h => ?_⟩
  · constructor
    · rintro ⟨e, he⟩
      by_cases hs : s = secret
      · by_cases hx : p.exp ≤ now
        · exact Or.inr hx
        · simp [jwt.decode, hs, hx] at he
      · exact Or.inl hs
    · rintro (hs | hx)
      · exact ⟨(), by simp [jwt.decode, hs]⟩
      · refine ⟨(), ?_⟩
        by_cases hs : s = secret
        · simp [jwt.decode, hs, hx]
        · simp [jwt.decode, hs]
  · simp [AuthService.generate_token, jwt.encode, jwt.decode, h]

/-- C6, witness: the 24-hour session token issued at time 0 under the
default configuration fails decode at time 86400 (exactly its expiry),
and a token signed with a different secret fails decode at any time. -/
theorem C6_decode_fail_iff_witness :
    jwt.decode (AuthService.generate_token cfg0 0 user0) cfg0.secret 86400 = .error () ∧
    (∃ e, jwt.decode (.signed ⟨some 1, some ("a@x.com"), some ("user"), none, 0, 86400, none⟩
      ("other-secret")) cfg0.secret 0 = .error e) :=
  ⟨(C6_decode_fail_iff cfg0.secret 86400).2.2 cfg0 user0 0 86400 (by decide),
   ((C6_decode_fail_iff cfg0.secret 0).2.1
      ⟨some 1, some ("a@x.com"), some ("user"), none, 0, 86400, none⟩
      ("other-secret")).mpr (Or.inl (by decide))⟩

/-- C8: `request_password_reset` returns `none` (raising nothing) when no
user has the email; otherwise it returns a token whose claims carry the
`type = "reset"` marker, the user's id as subject, the user's email, and an
expiry exactly 3600 seconds after issuance — and the result is unchanged
under any configured session-expiry value. -/
theorem C8_request_reset_spec (cfg : AuthConfig) (s : Store) (now : Nat) (email : String) :
    (UserService.get_by_email s email = none →
      AuthService.request_password_reset cfg s now email = none) ∧
    (∀ u, UserService.get_by_email s email = some u →
      AuthService.request_password_reset cfg s now email =
        some (jwt.encode ⟨some u.id, some u.email, none, some ("reset"), now, now + 3600, none⟩
          cfg.secret)) ∧
    (∀ hours, AuthService.request_password_reset ⟨cfg.secret, hours⟩ s now email =
      AuthService.request_password_reset cfg s now email) := by
  refine ⟨fun h => ?_, fun u h => ?_, fun hours => rfl⟩
  · simp [AuthService.request_password_reset, h]
  · simp [AuthService.request_password_reset, h, jwt.encode]

/-- C8, witness: under the fixture store, a reset request for a missing
email returns `none` and one for `user0`'s email returns the expected
one-hour reset token. -/
theorem C8_request_reset_spec_witness :
    AuthService.request_password_reset cfg0 store1 0 ("nobody@x.com") = none ∧
    AuthService.request_password_reset cfg0 store1 0 ("a@x.com") = some resetTok0 :=
  ⟨(C8_request_reset_spec cfg0 store1 0 ("nobody@x.com")).1 (by decide),
   ((C8_request_reset_spec cfg0 store1 0 ("a@x.com")).2.1 user0 (by decide)).trans (by decide)⟩

/-- C10: any token issued by `request_password_reset` is rejected by
`verify_token` — against every store and at every time — because its
claims lack `role_id`, so the role comparison's `KeyError` is swallowed by
the blanket handler (and every earlier check also returns `none`). -/
theorem C10_reset_token_never_verifies (cfg : AuthConfig) (s : Store) (now : Nat)
    (email : String) (tok : Token)
    (h : AuthService.request_password_reset cfg s now email = some tok) :
    ∀ s2 now2, AuthService.verify_token cfg s2 now2 tok = none := by
  intro s2 now2
  unfold AuthService.request_password_reset at h
  cases hg : UserService.get_by_email s email with
  | none => rw [hg] at h; cases h
  | some u =>
      rw [hg] at h
      injection h with h
      subst h
      by_cases hexp : now + 3600 ≤ now2
      · simp [AuthService.verify_token, jwt.encode, jwt.decode, hexp]
      · cases hid : UserService.get_by_id s2 u.id with
        | none => simp [AuthService.verify_token, jwt.encode, jwt.decode, hexp, hid]
        | some u2 => simp [AuthService.verify_token, jwt.encode, jwt.decode, hexp, hid]

/-- C10, witness: the concrete reset token issued for `user0` at time 0
does not verify at time 10 against the very store it was issued from. -/
theorem C10_reset_token_never_verifies_witness :
    AuthService.verify_token cfg0 store1 10 resetTok0 = none :=
  C10_reset_token_never_verifies cfg0 store1 0 ("a@x.com") resetTok0 (by decide) store1 10

/-- C1: `verify_token` returns `none` whenever decode fails; when decode
succeeds it looks the user up by the token's `sub` claim and returns `none`
if absent; and with the user found it returns that user exactly when the
user's current email and role both equal the token's embedded `email` and
`role_id` claims, `none` on any mismatch (a missing claim never matches). -/
theorem C1_verify_token_spec (cfg : AuthConfig) (s : Store) (now : Nat) (tok : Token) :
    (∀ e, jwt.decode tok cfg.secret now = .error e →
      AuthService.verify_token cfg s now tok = none) ∧
    (∀ p, jwt.decode tok cfg.secret now = .ok p →
      (∀ i, p.sub = some i → UserService.get_by_id s i = none →
        AuthService.verify_token cfg s now tok = none) ∧
      (∀ i u, p.sub = some i → UserService.get_by_id s i = some u →
        AuthService.verify_token cfg s now tok =
          (if p.email = some u.email ∧ p.role_id = some u.role_id then some u else none))) := by
  constructor
  · intro e he
    simp [AuthService.verify_token, he]
  · intro p hp
    constructor
    · intro i hi hnone
      simp [AuthService.verify_token, hp, hi, hnone]
    · intro i u hi hu
      simp only [AuthService.verify_token, hp, hi, hu]
      cases hem : p.email with
      | none => simp
      | some em =>
          by_cases h1 : u.email = em
          · subst h1
            cases hrole : p.role_id with
            | none => simp
            | some r =>
                by_cases h2 : u.role_id = r
                · subst h2; simp
                · simp [h2, Ne.symm h2]
          · dsimp only
            rw [if_pos h1, if_neg (fun hc => h1 (Option.some.inj hc.1).symm)]

/-- C1, witness: the session token for `user0` verifies back to `user0`
under the fixture store, and a malformed string verifies to `none`. -/
theorem C1_verify_token_spec_witness :
    AuthService.verify_token cfg0 store1 10 tokSession = some user0 ∧
    AuthService.verify_token cfg0 store1 10 (.malformed ("garbage")) = none :=
  ⟨(((C1_verify_token_spec cfg0 store1 10 tokSession).2
      ⟨some 1, some ("a@x.com"), some ("user"), none, 0, 3600 * 24, none⟩
      (by decide)).2 1 user0 (by decide) (by decide)).trans (by decide),
   (C1_verify_token_spec cfg0 store1 10 (.malformed ("garbage"))).1 () (by decide)⟩

/-- C5: `reset_password` fails with one of the two invalid-reset-token
`ValueError`s exactly when the token fails to decode, or the decoded claims
lack the `type = "reset"` marker, or the subject id is present but resolves
to no user, or the resolved user's email differs from the token's embedded
email claim; in particular any token issued by `generate_token` (a session
token, which carries no type marker) is always rejected this way.  On every
failure path the operation raises before any write, so no stored password
changes (an `.error` result carries no store). -/
theorem C5_reset_password_spec (cfg : AuthConfig) (s : Store) (now : Nat)
    (tok : Token) (newPw : Password) (salt : Salt) :
    ((∃ e, AuthService.reset_password cfg s now tok newPw salt = .error e ∧
        isInvalidResetTokenErr e) ↔
      ((∃ e, jwt.decode tok cfg.secret now = .error e) ∨
        (∃ p, jwt.decode tok cfg.secret now = .ok p ∧
          (p.type ≠ some ("reset") ∨
            ∃ i, p.sub = some i ∧
              (UserService.get_by_id s i = none ∨
                ∃ u em, UserService.get_by_id s i = some u ∧ p.email = some em ∧
                  u.email ≠ em))))) ∧
    (∀ now2 u2, tok = AuthService.generate_token cfg now2 u2 →
      ∃ e, AuthService.reset_password cfg s now tok newPw salt = .error e ∧
        isInvalidResetTokenErr e) := by
  constructor
  · cases hd : jwt.decode tok cfg.secret now with
    | error e0 =>
        apply iff_of_true
        · exact ⟨_, by simp [AuthService.reset_password, hd], Or.inr rfl⟩
        · exact Or.inl ⟨e0, rfl⟩
    | ok p =>
        by_cases ht : p.type = some ("reset")
        · cases hsub : p.sub with
          | none =>
              apply iff_of_false
              · rintro ⟨e, he, hinv⟩
                have hres : AuthService.reset_password cfg s now tok newPw salt =
                    .error (.keyError ("sub")) := by
                  simp [AuthService.reset_password, hd, ht, hsub]
                rw [hres] at he
                injection he with he
                subst he
                simp [isInvalidResetTokenErr] at hinv
              · rintro (⟨e, he⟩ | ⟨q, hq, hrest⟩)
                · cases he
                · injection hq with hq
                  subst hq
                  rcases hrest with h | ⟨i, hi, _⟩
                  · exact h ht
                  · rw [hsub] at hi; cases hi
          | some i =>
              cases hid : UserService.get_by_id s i with
              | none =>
                  apply iff_of_true
                  · refine ⟨_, ?_, Or.inl rfl⟩
                    simp [AuthService.reset_password, hd, ht, hsub, hid]
                  · exact Or.inr ⟨p, rfl, Or.inr ⟨i, hsub, Or.inl hid⟩⟩
              | some u =>
                  cases hem : p.email with
                  | none =>
                      apply iff_of_false
                      · rintro ⟨e, he, hinv⟩
                        have hres : AuthService.reset_password cfg s now tok newPw salt =
                            .error (.keyError ("email")) := by
                          simp [AuthService.reset_password, hd, ht, hsub, hid, hem]
                        rw [hres] at he
                        injection he with he
                        subst he
                        simp [isInvalidResetTokenErr] at hinv
                      · rintro (⟨e, he⟩ | ⟨q, hq, hrest⟩)
                        · cases he
                        · injection hq with hq
                          subst hq
                          rcases hrest with h | ⟨i2, hi2, hrest2⟩
                          · exact h ht
                          · rw [hsub] at hi2
                            injection hi2 with hi2
                            subst hi2
                            rcases hrest2 with h | ⟨u2, em2, hu2, hem2, _⟩
                            · rw [hid] at h; cases h
                            · rw [hem] at hem2; cases hem2
                  | some em =>
                      by_cases he : u.email = em
                      · apply iff_of_false
                        · rintro ⟨e, herr, _⟩
                          have hid2 : UserService.get_by_id s u.id = some u := by
                            rw [get_by_id_eq hid]; exact hid
                          have hres : AuthService.reset_password cfg s now tok newPw salt =
                              UserService.update_password s u.id newPw salt := by
                            simp [AuthService.reset_password, hd, ht, hsub, hid, hem, he]
                          rw [update_password_ok hid2 newPw salt] at hres
                          rw [hres] at herr
                          cases herr
                        · rintro (⟨e, he'⟩ | ⟨q, hq, hrest⟩)
                          · cases he'
                          · injection hq with hq
                            subst hq
                            rcases hrest with h | ⟨i2, hi2, hrest2⟩
                            · exact h ht
                            · rw [hsub] at hi2
                              injection hi2 with hi2
                              subst hi2
                              rcases hrest2 with h | ⟨u2, em2, hu2, hem2, hne⟩
                              · rw [hid] at h; cases h
                              · rw [hid] at hu2
                                injection hu2 with hu2
                                subst hu2
                                rw [hem] at hem2
                                injection hem2 with hem2
                                subst hem2
                                exact hne he
                      · apply iff_of_true
                        · refine ⟨_, ?_, Or.inl rfl⟩
                          simp [AuthService.reset_password, hd, ht, hsub, hid, hem, he]
                        · exact Or.inr ⟨p, rfl, Or.inr ⟨i, hsub, Or.inr ⟨u, em, hid, hem, he⟩⟩⟩
        · apply iff_of_true
          · refine ⟨_, ?_, Or.inl rfl⟩
            simp [AuthService.reset_password, hd, ht]
          · exact Or.inr ⟨p, rfl, Or.inl ht⟩
  · intro now2 u2 htok
    subst htok
    by_cases hexp : now2 + 3600 * cfg.expiryHours ≤ now
    · refine ⟨_, ?_, Or.inr rfl⟩
      simp [AuthService.reset_password, AuthService.generate_token, jwt.encode, jwt.decode, hexp]
    · refine ⟨_, ?_, Or.inl rfl⟩
      simp [AuthService.reset_password, AuthService.generate_token, jwt.encode, jwt.decode, hexp]

/-- C5, witness: resetting with the valid session token `tokSession` (no
reset-type marker) fails with an invalid-reset-token `ValueError`, and the
password of `user0` survives unchanged since no store is produced. -/
theorem C5_reset_password_spec_witness :
    ∃ e, AuthService.reset_password cfg0 store1 10 tokSession pwB salt0 = .error e ∧
      isInvalidResetTokenErr e :=
  (C5_reset_password_spec cfg0 store1 10 tokSession pwB salt0).2 0 user0 (by decide)

/-- C3, counterexample: the duplicate check is exact string equality, not
case-insensitive.  After registering `a@x.com`, registering `A@X.COM` —
equal under case-insensitive comparison — does not fail with the
duplicate-email error: it succeeds and creates a second user. -/
theorem C3_register_case_insensitive_cex :
    ("a@x.com" ≠ "A@X.COM" ∧
      ("a@x.com").data.map Char.toLower = ("A@X.COM").data.map Char.toLower) ∧
    AuthService.register emptyStore ("A") ("B") ("a@x.com") pwA salt0 0 = .ok (user0, store1) ∧
    AuthService.register store1 ("C") ("D") ("A@X.COM") pwA salt0 0 = .ok (userCase, storeCase) ∧
    storeCase.users.length = 2 := by
  decide

/-- C3, amended: after a successful registration, a second registration
with the byte-identical email always fails with
`ValueError("Email already registered")` and, raising, creates no user;
an email equal only up to case is not detected (see the counterexample). -/
theorem C3_register_duplicate_exact (s : Store) (fn ln fn2 ln2 email : String)
    (pw pw2 : Password) (sa sa2 : Salt) (n n2 : Nat) (u : User) (s1 : Store)
    (h : AuthService.register s fn ln email pw sa n = .ok (u, s1)) :
    AuthService.register s1 fn2 ln2 email pw2 sa2 n2 =
      .error (.valueError ("Email already registered")) := by
  unfold AuthService.register at h ⊢
  by_cases hex : UserService.exists_ s email = true
  · rw [if_pos hex] at h; cases h
  · rw [if_neg hex] at h
    dsimp only [UserService.create] at h
    cases hg : UserService.get_by_email s email with
    | some v => simp only [hg] at h; cases h
    | none =>
        simp only [hg] at h
        injection h with h
        injection h with h1 h2
        subst h2
        simp [UserService.exists_]

/-- C3, witness for the amended theorem: registering `a@x.com` twice in a
row, the second call fails with the duplicate-email error. -/
theorem C3_register_duplicate_exact_witness :
    AuthService.register store1 ("C") ("D") ("a@x.com") pwB salt0 5 =
      .error (.valueError ("Email already registered")) :=
  C3_register_duplicate_exact emptyStore ("A") ("B") ("C") ("D") ("a@x.com")
    pwA pwB salt0 salt0 0 5 user0 store1 (by decide)

/-- Lemma: `update_password` keeps the exact-email distinctness and the
set-password property of the store. -/
theorem StoreInv_update_password {s : Store} {i : Nat} {pw : Password} {sa : Salt}
    {b : Bool} {s1 : Store} (hInv : StoreInv s)
    (h : UserService.update_password s i pw sa = .ok (b, s1)) : StoreInv s1 := by
  unfold UserService.update_password at h
  cases hid : UserService.get_by_id s i with
  | none => simp only [hid] at h; cases h
  | some u =>
      simp only [hid] at h
      injection h with h
      injection h with hb hs
      subst hs
      constructor
      · rw [List.pairwise_map]
        refine hInv.1.imp ?_
        intro a c hac
        by_cases ha : (a.id == i) = true <;> by_cases hc : (c.id == i) = true <;>
          simp [ha, hc, hac]
      · intro v hv
        rw [List.mem_map] at hv
        obtain ⟨w, hw, hfw⟩ := hv
        subst hfw
        by_cases hwid : (w.id == i) = true
        · simp [hwid, User.set_password]
        · simpa [hwid] using hInv.2 w hw

/-- Lemma: `register` (hence `UserService.create`) keeps the exact-email
distinctness and the set-password property of the store. -/
theorem StoreInv_register {s : Store} {fn ln email : String} {pw : Password}
    {sa : Salt} {n : Nat} {u : User} {s1 : Store} (hInv : StoreInv s)
    (h : AuthService.register s fn ln email pw sa n = .ok (u, s1)) : StoreInv s1 := by
  unfold AuthService.register at h
  by_cases hex : UserService.exists_ s email = true
  · rw [if_pos hex] at h; cases h
  · rw [if_neg hex] at h
    dsimp only [UserService.create] at h
    cases hg : UserService.get_by_email s email with
    | some v => simp only [hg] at h; cases h
    | none =>
        simp only [hg] at h
        injection h with h
        injection h with h1 h2
        subst h2
        constructor
        · rw [List.pairwise_append]
          refine ⟨hInv.1, List.pairwise_singleton _ _, ?_⟩
          intro a ha c hc
          rw [List.mem_singleton] at hc
          subst hc
          intro hcontra
          exact hex (by
            unfold UserService.exists_
            rw [List.any_eq_true]
            exact ⟨a, ha, by simp [hcontra]⟩)
        · intro v hv
          rw [List.mem_append] at hv
          rcases hv with hv | hv
          · exact hInv.2 v hv
          · rw [List.mem_singleton] at hv; subst hv; rfl

/-- C9, counterexample: the case-insensitive form of the invariant is not
preserved — registering `A@X.COM` into a store that holds `a@x.com`
succeeds, and the resulting store has two users whose emails are equal
after lower-casing. -/
theorem C9_invariant_case_insensitive_cex :
    StoreInvCI store1 ∧
    AuthService.register store1 ("C") ("D") ("A@X.COM") pwA salt0 0 =
      .ok (userCase, storeCase) ∧
    ¬ StoreInvCI storeCase := by
  refine ⟨by decide, by decide, ?_⟩
  intro hc
  exact absurd hc.1 (by decide)

/-- C9, amended: the auth-core operations that write to the store —
`register`, `change_password`, `reset_password` (via the Credential-Store
writes `create` and `update_password`) — preserve the invariant that
persisted users have pairwise distinct emails under *exact* comparison and
that every persisted user's password hash is set. -/
theorem C9_auth_ops_preserve_inv (s : Store) (hInv : StoreInv s) :
    (∀ fn ln email pw sa n u s1,
      AuthService.register s fn ln email pw sa n = .ok (u, s1) → StoreInv s1) ∧
    (∀ i oldPw newPw sa b s1,
      AuthService.change_password s i oldPw newPw sa = .ok (b, s1) → StoreInv s1) ∧
    (∀ cfg now tok newPw sa b s1,
      AuthService.reset_password cfg s now tok newPw sa = .ok (b, s1) → StoreInv s1) := by
  refine ⟨fun fn ln email pw sa n u s1 h => StoreInv_register hInv h, ?_, ?_⟩
  · intro i oldPw newPw sa b s1 h
    unfold AuthService.change_password at h
    cases hid : UserService.get_by_id s i with
    | none => simp only [hid] at h; cases h
    | some u =>
        simp only [hid] at h
        by_cases hv : u.verify_password oldPw = true
        · rw [if_neg (fun hc => hc hv)] at h
          exact StoreInv_update_password hInv h
        · rw [if_pos hv] at h; cases h
  · intro cfg now tok newPw sa b s1 h
    unfold AuthService.reset_password at h
    cases hd : jwt.decode tok cfg.secret now with
    | error e => simp only [hd] at h; cases h
    | ok p =>
        simp only [hd] at h
        by_cases ht : p.type = some ("reset")
        · rw [if_neg (fun hc => hc ht)] at h
          cases hsub : p.sub with
          | none => simp only [hsub] at h; cases h
          | some i =>
              simp only [hsub] at h
              cases hid : UserService.get_by_id s i with
              | none => simp only [hid] at h; cases h
              | some u =>
                  simp only [hid] at h
                  cases hem : p.email with
                  | none => simp only [hem] at h; cases h
                  | some em =>
                      simp only [hem] at h
                      by_cases he : u.email = em
                      · rw [if_neg (fun hc => hc he)] at h
                        exact StoreInv_update_password hInv h
                      · rw [if_pos he] at h; cases h
        · rw [if_pos ht] at h; cases h

/-- C9, witness for the amended theorem: the invariant holds of the
two-user fixture store produced by the two registrations. -/
theorem C9_auth_ops_preserve_inv_witness : StoreInv storeCase :=
  (C9_auth_ops_preserve_inv store1 (by decide)).1
    ("C") ("D") ("A@X.COM") pwA salt0 0 userCase storeCase (by decide)

/-- A user returned by `verify_token` is found again by its own id. -/
theorem verify_some_get {cfg : AuthConfig} {s : Store} {now : Nat} {tok : Token}
    {u : User} (h : AuthService.verify_token cfg s now tok = some u) :
    UserService.get_by_id s u.id = some u := by
  unfold AuthService.verify_token at h
  cases hd : jwt.decode tok cfg.secret now with
  | error e => simp only [hd] at h; cases h
  | ok p =>
      simp only [hd] at h
      cases hsub : p.sub with
      | none => simp only [hsub] at h; cases h
      | some i =>
          simp only [hsub] at h
          cases hid : UserService.get_by_id s i with
          | none => simp only [hid] at h; cases h
          | some v =>
              simp only [hid] at h
              cases hem : p.email with
              | none => simp only [hem] at h; cases h
              | some em =>
                  simp only [hem] at h
                  by_cases he : v.email = em
                  · rw [if_neg (fun hc => hc he)] at h
                    cases hrole : p.role_id with
                    | none => simp only [hrole] at h; cases h
                    | some r =>
                        simp only [hrole] at h
                        by_cases hr : v.role_id = r
                        · rw [if_neg (fun hc => hc hr)] at h
                          injection h with h
                          subst h
                          rw [get_by_id_eq hid]
                          exact hid
                        · rw [if_pos hr] at h; cases h
                  · rw [if_pos he] at h; cases h

/-- C7, counterexample: `jti` is `str(now.timestamp())`, a value determined
by the clock alone, not unique.  `tokRefresh` is exactly the token
`refresh_token` issues for `user0` at time 1000; refreshing it again at
time 1000 (the same clock tick) returns a token whose encoded bytes equal
the input's — the input verifies, yet the output does not differ. -/
theorem C7_refresh_same_tick_cex :
    AuthService.verify_token cfg0 store1 1000 tokRefresh = some user0 ∧
    AuthService.refresh_token cfg0 store1 1000 tokRefresh = .ok tokRefresh := by
  decide

/-- C7, amended: `refresh_token` fails with
`ValueError("Invalid or expired token")` exactly when `verify_token`
returns `none`; otherwise it returns a token with fresh issued-at/expiry
and `jti = str(now.timestamp())`, which differs from the input token
whenever the input carries no `jti` claim (as all login-issued session
tokens do), and which itself verifies to the same user whenever the
configured expiry is positive.  Tokens issued by `refresh_token` itself in
the same clock tick are not distinguished (see the counterexample). -/
theorem C7_refresh_token_spec (cfg : AuthConfig) (s : Store) (now : Nat) (tok : Token) :
    (AuthService.verify_token cfg s now tok = none ↔
      AuthService.refresh_token cfg s now tok =
        .error (.valueError ("Invalid or expired token"))) ∧
    (∀ u, AuthService.verify_token cfg s now tok = some u →
      AuthService.refresh_token cfg s now tok =
        .ok (jwt.encode ⟨some u.id, some u.email, some u.role_id, none, now,
          now + 3600 * cfg.expiryHours, some (timestampStr now)⟩ cfg.secret) ∧
      (∀ p sec, tok = .signed p sec → p.jti = none →
        AuthService.refresh_token cfg s now tok ≠ .ok tok) ∧
      (0 < cfg.expiryHours →
        AuthService.verify_token cfg s now
          (jwt.encode ⟨some u.id, some u.email, some u.role_id, none, now,
            now + 3600 * cfg.expiryHours, some (timestampStr now)⟩ cfg.secret) = some u)) := by
  constructor
  · constructor
    · intro hv
      simp [AuthService.refresh_token, hv]
    · intro hr
      cases hv : AuthService.verify_token cfg s now tok with
      | none => rfl
      | some u => simp [AuthService.refresh_token, hv] at hr
  · intro u hu
    have hres : AuthService.refresh_token cfg s now tok =
        .ok (jwt.encode ⟨some u.id, some u.email, some u.role_id, none, now,
          now + 3600 * cfg.expiryHours, some (timestampStr now)⟩ cfg.secret) := by
      simp [AuthService.refresh_token, hu]
    refine ⟨hres, ?_, ?_⟩
    · rintro p sec rfl hjti hcontra
      rw [hres] at hcontra
      injection hcontra with hcontra
      unfold jwt.encode at hcontra
      injection hcontra with h1 h2
      have := congrArg Payload.jti h1
      rw [hjti] at this
      cases this
    · intro hpos
      have hid2 := verify_some_get hu
      have hlt : ¬ (now + 3600 * cfg.expiryHours ≤ now) := by omega
      simp [AuthService.verify_token, jwt.encode, jwt.decode, hlt, hid2]

/-- C7, witness for the amended theorem: refreshing the (jti-free) session
token `tokSession` at time 10 yields a token different from the input, and
that new token verifies back to `user0`. -/
theorem C7_refresh_token_spec_witness :
    AuthService.refresh_token cfg0 store1 10 tokSession ≠ .ok tokSession ∧
    AuthService.verify_token cfg0 store1 10
      (jwt.encode ⟨some user0.id, some user0.email, some user0.role_id, none, 10,
        10 + 3600 * cfg0.expiryHours, some (timestampStr 10)⟩ cfg0.secret) = some user0 :=
  ⟨((C7_refresh_token_spec cfg0 store1 10 tokSession).2 user0 (by decide)).2.1
      ⟨some 1, some ("a@x.com"), some ("user"), none, 0, 3600 * 24, none⟩
      ("your-secret-key") rfl rfl,
   ((C7_refresh_token_spec cfg0 store1 10 tokSession).2 user0 (by decide)).2.2 (by decide)⟩

end VacProj
